import Mathlib

/-!
Verification of the Pocket `list` subcommand (src/modules/pocket/list.rs).

The embedding works at the byte level: a Rust `String` is UTF-8 bytes, and
`str::from_utf8` returns a view of the same bytes, so both the transport
buffer and every string flowing through the pipeline are modelled as
`List Nat` (byte values).  serde_json parsing is modelled by an executable
JSON parser over bytes plus the field-extraction semantics generated by
`derive(Deserialize)` on `ListResult` and `Article`.
-/

set_option maxRecDepth 16384

abbrev Bytes := List Nat

/-- Bytes of an ASCII string literal (all inputs used here are ASCII). -/
def asciiBytes (s : String) : Bytes := s.data.map Char.toNat

/-- Continuation byte of a multi-byte UTF-8 sequence. -/
def isCont (b : Nat) : Bool := 0x80 ≤ b && b ≤ 0xBF

/-- Model of the validation performed by `str::from_utf8` (line 163 of
list.rs): accepts exactly well-formed UTF-8, rejecting overlong encodings,
surrogates and code points above 0x10FFFF. -/
def validUtf8 : Bytes → Bool
  | [] => true
  | b :: rest =>
    if b ≤ 0x7F then validUtf8 rest
    else if 0xC2 ≤ b && b ≤ 0xDF then
      match rest with
      | b2 :: r => isCont b2 && validUtf8 r
      | [] => false
    else if b == 0xE0 then
      match rest with
      | b2 :: b3 :: r => (0xA0 ≤ b2 && b2 ≤ 0xBF) && isCont b3 && validUtf8 r
      | _ => false
    else if (0xE1 ≤ b && b ≤ 0xEC) || b == 0xEE || b == 0xEF then
      match rest with
      | b2 :: b3 :: r => isCont b2 && isCont b3 && validUtf8 r
      | _ => false
    else if b == 0xED then
      match rest with
      | b2 :: b3 :: r => (0x80 ≤ b2 && b2 ≤ 0x9F) && isCont b3 && validUtf8 r
      | _ => false
    else if b == 0xF0 then
      match rest with
      | b2 :: b3 :: b4 :: r =>
        (0x90 ≤ b2 && b2 ≤ 0xBF) && isCont b3 && isCont b4 && validUtf8 r
      | _ => false
    else if 0xF1 ≤ b && b ≤ 0xF3 then
      match rest with
      | b2 :: b3 :: b4 :: r => isCont b2 && isCont b3 && isCont b4 && validUtf8 r
      | _ => false
    else if b == 0xF4 then
      match rest with
      | b2 :: b3 :: b4 :: r =>
        (0x80 ≤ b2 && b2 ≤ 0x8F) && isCont b3 && isCont b4 && validUtf8 r
      | _ => false
    else false

/-- JSON documents as parsed by serde_json.  String contents are kept as raw
UTF-8 bytes.  A number carries `some i` when it is written without fraction
or exponent (serde_json then yields an integer), otherwise `none` (a float,
which integer targets such as i32 reject). -/
inductive Json where
  | null
  | bool (b : Bool)
  | num (i : Option Int)
  | str (s : Bytes)
  | arr (elems : List Json)
  | obj (fields : List (Bytes × Json))

/-- JSON insignificant whitespace: space, tab, line feed, carriage return. -/
def skipWs : Bytes → Bytes
  | b :: rest =>
    if b == 0x20 || b == 0x09 || b == 0x0A || b == 0x0D then skipWs rest
    else b :: rest
  | [] => []

/-- Value of a hexadecimal digit byte, if it is one. -/
def hexVal (b : Nat) : Option Nat :=
  if 0x30 ≤ b && b ≤ 0x39 then some (b - 0x30)
  else if 0x41 ≤ b && b ≤ 0x46 then some (b - 0x37)
  else if 0x61 ≤ b && b ≤ 0x66 then some (b - 0x57)
  else none

/-- UTF-8 encoding of one Unicode scalar value (used for \u escapes). -/
def utf8EncodeScalar (c : Nat) : Bytes :=
  if c < 0x80 then [c]
  else if c < 0x800 then [0xC0 + c / 64, 0x80 + c % 64]
  else if c < 0x10000 then [0xE0 + c / 4096, 0x80 + c / 64 % 64, 0x80 + c % 64]
  else [0xF0 + c / 262144, 0x80 + c / 4096 % 64, 0x80 + c / 64 % 64, 0x80 + c % 64]

/-- Body of a JSON string after the opening quote: returns the decoded
content bytes and the remainder after the closing quote.  Escapes and the
rejection of unescaped control bytes follow serde_json; \u escapes must
form valid scalars, with surrogate pairs combined and lone surrogates
rejected. -/
def parseStringBody : Bytes → Option (Bytes × Bytes)
  | [] => none
  | b :: rest =>
    if b == 0x22 then some ([], rest)
    else if b == 0x5C then
      match rest with
      | [] => none
      | e :: rest2 =>
        if e == 0x22 then (parseStringBody rest2).map (fun p => (0x22 :: p.1, p.2))
        else if e == 0x5C then (parseStringBody rest2).map (fun p => (0x5C :: p.1, p.2))
        else if e == 0x2F then (parseStringBody rest2).map (fun p => (0x2F :: p.1, p.2))
        else if e == 0x62 then (parseStringBody rest2).map (fun p => (0x08 :: p.1, p.2))
        else if e == 0x66 then (parseStringBody rest2).map (fun p => (0x0C :: p.1, p.2))
        else if e == 0x6E then (parseStringBody rest2).map (fun p => (0x0A :: p.1, p.2))
        else if e == 0x72 then (parseStringBody rest2).map (fun p => (0x0D :: p.1, p.2))
        else if e == 0x74 then (parseStringBody rest2).map (fun p => (0x09 :: p.1, p.2))
        else if e == 0x75 then
          match rest2 with
          | h1 :: h2 :: h3 :: h4 :: rest3 =>
            match hexVal h1, hexVal h2, hexVal h3, hexVal h4 with
            | some v1, some v2, some v3, some v4 =>
              let cp := v1 * 4096 + v2 * 256 + v3 * 16 + v4
              if cp < 0xD800 || 0xE000 ≤ cp then
                (parseStringBody rest3).map
                  (fun p => (utf8EncodeScalar cp ++ p.1, p.2))
              else if cp < 0xDC00 then
                match rest3 with
                | 0x5C :: 0x75 :: g1 :: g2 :: g3 :: g4 :: rest4 =>
                  match hexVal g1, hexVal g2, hexVal g3, hexVal g4 with
                  | some w1, some w2, some w3, some w4 =>
                    let lo := w1 * 4096 + w2 * 256 + w3 * 16 + w4
                    if 0xDC00 ≤ lo && lo < 0xE000 then
                      let scalar := 0x10000 + (cp - 0xD800) * 0x400 + (lo - 0xDC00)
                      (parseStringBody rest4).map
                        (fun p => (utf8EncodeScalar scalar ++ p.1, p.2))
                    else none
                  | _, _, _, _ => none
                | _ => none
              else none
            | _, _, _, _ => none
          | _ => none
        else none
    else if b < 0x20 then none
    else (parseStringBody rest).map (fun p => (b :: p.1, p.2))

/-- Decimal digit byte. -/
def isDigit (b : Nat) : Bool := 0x30 ≤ b && b ≤ 0x39

/-- Split off a (possibly empty) run of leading decimal digits. -/
def takeDigits : Bytes → (List Nat × Bytes)
  | [] => ([], [])
  | b :: rest =>
    if isDigit b then
      let p := takeDigits rest
      (b :: p.1, p.2)
    else ([], b :: rest)

/-- Decimal value of a digit-byte run, accumulator style. -/
def digitsToNat (acc : Nat) : List Nat → Nat
  | [] => acc
  | d :: ds => digitsToNat (acc * 10 + (d - 0x30)) ds

/-- Optional fraction part: `true` when a fraction was consumed. -/
def parseFrac : Bytes → Option (Bool × Bytes)
  | 0x2E :: rest =>
    match takeDigits rest with
    | ([], _) => none
    | (_ :: _, r) => some (true, r)
  | bs => some (false, bs)

/-- Optional exponent part: `true` when an exponent was consumed. -/
def parseExp : Bytes → Option (Bool × Bytes)
  | b :: rest =>
    if b == 0x65 || b == 0x45 then
      let rest2 :=
        match rest with
        | s :: r2 => if s == 0x2B || s == 0x2D then r2 else s :: r2
        | [] => []
      match takeDigits rest2 with
      | ([], _) => none
      | (_ :: _, r) => some (true, r)
    else some (false, b :: rest)
  | [] => some (false, [])

/-- JSON number starting at its first digit (sign already consumed); no
leading zeros, per the JSON grammar serde_json implements. -/
def parseNumber (neg : Bool) (bs : Bytes) : Option (Json × Bytes) :=
  match bs with
  | [] => none
  | b :: rest =>
    let intPart : Option (Nat × Bytes) :=
      if b == 0x30 then some (0, rest)
      else if isDigit b then
        let p := takeDigits rest
        some (digitsToNat (b - 0x30) p.1, p.2)
      else none
    match intPart with
    | none => none
    | some (n, r1) =>
      match parseFrac r1 with
      | none => none
      | some (hasFrac, r2) =>
        match parseExp r2 with
        | none => none
        | some (hasExp, r3) =>
          let value : Option Int :=
            if hasFrac || hasExp then none
            else some (if neg then -(n : Int) else (n : Int))
          some (.num value, r3)

mutual

/-- One JSON value at the head of the input (leading whitespace already
skipped): dispatch on the first byte, as serde_json does. -/
def parseValue : Nat → Bytes → Option (Json × Bytes)
  | 0, _ => none
  | _ + 1, [] => none
  | fuel + 1, b :: rest =>
    if b == 0x6E then
      match rest with
      | 0x75 :: 0x6C :: 0x6C :: r => some (.null, r)
      | _ => none
    else if b == 0x74 then
      match rest with
      | 0x72 :: 0x75 :: 0x65 :: r => some (.bool true, r)
      | _ => none
    else if b == 0x66 then
      match rest with
      | 0x61 :: 0x6C :: 0x73 :: 0x65 :: r => some (.bool false, r)
      | _ => none
    else if b == 0x22 then (parseStringBody rest).map (fun p => (.str p.1, p.2))
    else if b == 0x5B then parseArrayBody fuel (skipWs rest)
    else if b == 0x7B then parseObjectBody fuel (skipWs rest)
    else if b == 0x2D then parseNumber true rest
    else if isDigit b then parseNumber false (b :: rest)
    else none

/-- Array contents after the opening bracket (whitespace skipped). -/
def parseArrayBody : Nat → Bytes → Option (Json × Bytes)
  | 0, _ => none
  | fuel + 1, bs =>
    match bs with
    | 0x5D :: r => some (.arr [], r)
    | _ => parseElems fuel [] bs

/-- Comma-separated array elements, accumulating in order. -/
def parseElems : Nat → List Json → Bytes → Option (Json × Bytes)
  | 0, _, _ => none
  | fuel + 1, acc, bs =>
    match parseValue fuel bs with
    | none => none
    | some (v, r1) =>
      match skipWs r1 with
      | 0x5D :: r2 => some (.arr (acc ++ [v]), r2)
      | 0x2C :: r2 => parseElems fuel (acc ++ [v]) (skipWs r2)
      | _ => none

/-- Object contents after the opening brace (whitespace skipped). -/
def parseObjectBody : Nat → Bytes → Option (Json × Bytes)
  | 0, _ => none
  | fuel + 1, bs =>
    match bs with
    | 0x7D :: r => some (.obj [], r)
    | _ => parseMembers fuel [] bs

/-- Comma-separated key-value members; keys are JSON strings; every pair
is kept in source order (duplicate handling is per deserialization target,
as in serde). -/
def parseMembers : Nat → List (Bytes × Json) → Bytes → Option (Json × Bytes)
  | 0, _, _ => none
  | fuel + 1, acc, bs =>
    match bs with
    | 0x22 :: r =>
      match parseStringBody r with
      | none => none
      | some (key, r2) =>
        match skipWs r2 with
        | 0x3A :: r3 =>
          match parseValue fuel (skipWs r3) with
          | none => none
          | some (v, r4) =>
            match skipWs r4 with
            | 0x7D :: r5 => some (.obj (acc ++ [(key, v)]), r5)
            | 0x2C :: r5 => parseMembers fuel (acc ++ [(key, v)]) (skipWs r5)
            | _ => none
        | _ => none
    | _ => none

end

/-- Model of the serde_json lexer and parser on a whole input: one value,
surrounded only by whitespace.  The fuel bound is generous: every level of
recursion first consumes at least one input byte. -/
def parseJson (bs : Bytes) : Option Json :=
  match parseValue (4 * bs.length + 16) (skipWs bs) with
  | some (v, rest) => if skipWs rest == [] then some v else none
  | none => none

/-- The `Article` response record (lines 183-188 of list.rs): fields
`item_id`, `resolved_title`, `resolved_url`, all strings, kept as raw
UTF-8 bytes. -/
structure Article where
  item_id : Bytes
  resolved_title : Bytes
  resolved_url : Bytes
deriving DecidableEq

/-- The `ListResult` response record (lines 176-181 of list.rs): integer
`status` and `complete` (i32), and `list`, a HashMap from article id to
Article, modelled as an association list with distinct keys. -/
structure ListResult where
  status : Int
  complete : Int
  list : List (Bytes × Article)
deriving DecidableEq

/-- serde: a String field accepts exactly a JSON string. -/
def jsonAsStr : Json → Option Bytes
  | .str s => some s
  | _ => none

/-- serde: an i32 field accepts exactly an integer JSON number that fits
in 32 bits (floats and out-of-range integers are rejected). -/
def jsonAsI32 : Json → Option Int
  | .num (some i) =>
    if -2147483648 ≤ i && i ≤ 2147483647 then some i else none
  | _ => none

/-- Field loop of the derived `Deserialize` for `Article`: named fields
fill their slot exactly once (a duplicate is an error), unknown fields are
ignored (serde default), and every named field must be present at the
end. -/
def articleFromFields :
    List (Bytes × Json) → Option Bytes → Option Bytes → Option Bytes →
    Option Article
  | [], some i, some t, some u => some ⟨i, t, u⟩
  | [], _, _, _ => none
  | (k, v) :: rest, i, t, u =>
    if k == asciiBytes "item_id" then
      match i, jsonAsStr v with
      | none, some s => articleFromFields rest (some s) t u
      | _, _ => none
    else if k == asciiBytes "resolved_title" then
      match t, jsonAsStr v with
      | none, some s => articleFromFields rest i (some s) u
      | _, _ => none
    else if k == asciiBytes "resolved_url" then
      match u, jsonAsStr v with
      | none, some s => articleFromFields rest i t (some s)
      | _, _ => none
    else articleFromFields rest i t u

/-- Derived `Deserialize` for `Article`: the value must be an object. -/
def articleFromJson : Json → Option Article
  | .obj fields => articleFromFields fields none none none
  | _ => none

/-- Model of `HashMap::insert`: a repeated key replaces the stored value (the model
keeps first-insertion position; HashMap iteration order is arbitrary
anyway). -/
def hashMapInsert (m : List (Bytes × Article)) (k : Bytes) (a : Article) :
    List (Bytes × Article) :=
  match m with
  | [] => [(k, a)]
  | (k2, a2) :: rest =>
    if k2 == k then (k, a) :: rest else (k2, a2) :: hashMapInsert rest k a

/-- Entry loop of `Deserialize` for `HashMap<String, Article>`: each member
value must deserialize as an Article; entries are inserted in order. -/
def hashMapFromFields (acc : List (Bytes × Article)) :
    List (Bytes × Json) → Option (List (Bytes × Article))
  | [] => some acc
  | (k, v) :: rest =>
    match articleFromJson v with
    | some a => hashMapFromFields (hashMapInsert acc k a) rest
    | none => none

/-- Model of `Deserialize` for `HashMap<String, Article>`: the value must be an
object. -/
def hashMapFromJson : Json → Option (List (Bytes × Article))
  | .obj fields => hashMapFromFields [] fields
  | _ => none

/-- Field loop of the derived `Deserialize` for `ListResult`: slots for
`status`, `complete` and `list`; duplicates error, unknown fields are
ignored, all three must be present at the end. -/
def listResultFromFields :
    List (Bytes × Json) → Option Int → Option Int →
    Option (List (Bytes × Article)) → Option ListResult
  | [], some s, some c, some l => some ⟨s, c, l⟩
  | [], _, _, _ => none
  | (k, v) :: rest, s, c, l =>
    if k == asciiBytes "status" then
      match s, jsonAsI32 v with
      | none, some i => listResultFromFields rest (some i) c l
      | _, _ => none
    else if k == asciiBytes "complete" then
      match c, jsonAsI32 v with
      | none, some i => listResultFromFields rest s (some i) l
      | _, _ => none
    else if k == asciiBytes "list" then
      match l, hashMapFromJson v with
      | none, some m => listResultFromFields rest s c (some m)
      | _, _ => none
    else listResultFromFields rest s c l

/-- Derived `Deserialize` for `ListResult`. -/
def listResultFromJson : Json → Option ListResult
  | .obj fields => listResultFromFields fields none none none
  | _ => none

/-- Model of `serde_json::from_str::<ListResult>` (line 191 of list.rs). -/
def fromStrListResult (bs : Bytes) : Option ListResult :=
  (parseJson bs).bind listResultFromJson

/-- The `State` request enum (lines 24-30 of list.rs). -/
inductive State where
  | unread
  | archive
  | all
deriving DecidableEq

/-- Model of `impl From<&str> for State` (lines 32-40): fixed lookup with silent
fallback to `unread`.  (Rust name `from`; `from` is reserved in Lean.) -/
def State.fromStr (s : String) : State :=
  if s = "archive" then State.archive
  else if s = "all" then State.all
  else State.unread

/-- serde `Serialize` for `State`: the variant name as a JSON string. -/
def State.serialize : State → String
  | .unread => "unread"
  | .archive => "archive"
  | .all => "all"

/-- The `Sort` request enum (lines 42-49 of list.rs).  Source name `Sort`
is reserved in Lean, hence `SortOrder`. -/
inductive SortOrder where
  | newest
  | oldest
  | title
  | site
deriving DecidableEq

/-- Model of `impl From<&str> for Sort` (lines 51-60): fixed lookup with silent
fallback to `newest`. -/
def SortOrder.fromStr (s : String) : SortOrder :=
  if s = "oldest" then SortOrder.oldest
  else if s = "title" then SortOrder.title
  else if s = "site" then SortOrder.site
  else SortOrder.newest

/-- serde `Serialize` for `Sort`. -/
def SortOrder.serialize : SortOrder → String
  | .newest => "newest"
  | .oldest => "oldest"
  | .title => "title"
  | .site => "site"

/-- The `DetailType` request enum (lines 62-67 of list.rs). -/
inductive DetailType where
  | simple
  | complete
deriving DecidableEq

/-- Model of `impl From<bool> for DetailType` (lines 69-77). -/
def DetailType.ofBool (b : Bool) : DetailType :=
  if b then DetailType.complete else DetailType.simple

/-- serde `Serialize` for `DetailType`. -/
def DetailType.serialize : DetailType → String
  | .simple => "simple"
  | .complete => "complete"

/-- The request payload struct (lines 79-89 of list.rs), in declaration
order, with the three `skip_serializing_if = Option::is_none` fields. -/
structure Request where
  consumer_key : String
  access_token : String
  state : Option State
  tag : Option String
  sort : Option SortOrder
  detailType : DetailType
  search : Option String
deriving DecidableEq

/-- Model of `serde_json::to_string(&request)` at the JSON-object level:
the ordered key-value pairs of the serialized body.  All values of this
struct serialize as JSON strings; an `Option` field marked with
`skip_serializing_if = Option::is_none` contributes no key when `None`. -/
def Request.serializeFields (r : Request) : List (String × String) :=
  [("consumer_key", r.consumer_key), ("access_token", r.access_token)]
  ++ (match r.state with
      | some s => [("state", s.serialize)]
      | none => [])
  ++ (match r.tag with
      | some t => [("tag", t)]
      | none => [])
  ++ (match r.sort with
      | some s => [("sort", s.serialize)]
      | none => [])
  ++ [("detailType", r.detailType.serialize)]
  ++ (match r.search with
      | some s => [("search", s)]
      | none => [])

/-- One clap argument declaration, as used by `build_sub_cli`. -/
structure ArgSpec where
  name : String
  takesValue : Bool
  defaultValue : Option String
  possibleValues : List String
deriving DecidableEq

/-- Model of `build_sub_cli` (lines 91-116 of list.rs): the four declared flags of
the `list` subcommand.  No `search` argument is declared. -/
def build_sub_cli : List ArgSpec :=
  [⟨"details", false, none, []⟩,
   ⟨"tag", true, none, []⟩,
   ⟨"state", true, some "unread", ["unread", "archive", "all"]⟩,
   ⟨"sort", true, some "newest", ["newest", "oldest", "title", "site"]⟩]

/-- A clap `ArgMatches` for the `list` subcommand, after defaults: the
`details` flag, the optional `tag` value, and the `state` and `sort`
values (always present, because `build_sub_cli` gives them
default values). -/
structure ParsedArgs where
  details : Bool
  tag : Option String
  state : String
  sort : String
deriving DecidableEq

/-- Model of `ArgMatches::is_present` for this subcommand: `state` and `sort` are
always present (defaults), `tag` when supplied, and any name not declared
in `build_sub_cli` — in particular `search` — is never present. -/
def ParsedArgs.isPresent (a : ParsedArgs) (name : String) : Bool :=
  if name = "details" then a.details
  else if name = "tag" then a.tag.isSome
  else if name = "state" then true
  else if name = "sort" then true
  else false

/-- Model of `ArgMatches::value_of` for this subcommand. -/
def ParsedArgs.valueOf (a : ParsedArgs) (name : String) : Option String :=
  if name = "tag" then a.tag
  else if name = "state" then some a.state
  else if name = "sort" then some a.sort
  else none

instance {ε α : Type} [DecidableEq ε] [DecidableEq α] : DecidableEq (Except ε α) :=
  fun x y =>
    match x, y with
    | .error a, .error b =>
      if h : a = b then .isTrue (congrArg Except.error h)
      else .isFalse (fun hh => h (by cases hh; rfl))
    | .error _, .ok _ => .isFalse (fun hh => Except.noConfusion hh)
    | .ok _, .error _ => .isFalse (fun hh => Except.noConfusion hh)
    | .ok a, .ok b =>
      if h : a = b then .isTrue (congrArg Except.ok h)
      else .isFalse (fun hh => h (by cases hh; rfl))

/-- The two variants of `config::OutputFormat` used here. -/
inductive OutputFormat where
  | HUMAN
  | JSON
deriving DecidableEq

/-- The Pocket section of the configuration: `consumer_key` and the
optional `access_token`. -/
structure PocketConfig where
  consumer_key : String
  access_token : Option String
deriving DecidableEq

/-- The configuration consumed by `call`: `config.pocket` and
`config.general.output_format` (the general section is flattened to the
one field used). -/
structure Config where
  pocket : PocketConfig
  output_format : OutputFormat
deriving DecidableEq

/-- Behaviour of the one `curl` transport call: either curl itself fails,
or it yields an HTTP status code and the raw bytes written into the
response buffer. -/
inductive TransportBehavior where
  | fails (msg : String)
  | responds (statusCode : Nat) (body : Bytes)
deriving DecidableEq

/-- Outcome of one invocation of `call`: a panic (an `unwrap` on `None`),
an `Err` carrying its chain of context strings (outermost first, as built
by `chain_err`), or `Ok(())`. -/
inductive RunResult where
  | panic
  | error (chain : List String)
  | ok
deriving DecidableEq

/-- The `description()` of `ErrorKind::PocketListFailed` (lines 15-22 of
list.rs), the umbrella error classification. -/
def pocketListFailedMsg : String := "failed to list Pocket articles"

/-- Stand-in for the message of the `str::Utf8Error` wrapped at line 163. -/
def utf8DecodeErrMsg : String := "invalid utf-8 sequence"

/-- Stand-in for the message of the `serde_json::Error` wrapped at
line 191. -/
def serdeJsonErrMsg : String := "invalid JSON"

/-- Everything observable about one invocation of `call`: its result, the
`info` and `msg` console lines, the bytes forwarded to the structured
output sink, the serialized request body, and whether the transport was
invoked. -/
structure CallTrace where
  result : RunResult
  infoLines : List Bytes
  msgLines : List Bytes
  sink : Option Bytes
  body : Option (List (String × String))
  transportCalled : Bool
deriving DecidableEq

/-- Model of `output_human` (lines 190-203 of list.rs): parse the response into a
`ListResult` (failure is chained with context "JSON parsing failed"); on
status 1 report the article count, otherwise report the failure message;
then — unconditionally — emit one line per article, `id`, a colon, the
single-quoted title, a comma, and the url.  Returns the emitted `msg`
lines on success. -/
def output_human (json : Bytes) : Except (List String) (List Bytes) :=
  match fromStrListResult json with
  | none => .error ["JSON parsing failed", serdeJsonErrMsg]
  | some list =>
    let head :=
      if list.status == 1 then
        asciiBytes ("Received " ++ toString list.list.length ++ " articles.")
      else asciiBytes "Receiving articles failed."
    .ok (head :: list.list.map (fun kv =>
      kv.2.item_id ++ asciiBytes ": " ++ [0x27] ++ kv.2.resolved_title
        ++ [0x27] ++ asciiBytes ", " ++ kv.2.resolved_url))

/-- Modelled from the spec: `utils::output::as_json` is not under src; per
the spec it forwards the raw response bytes as-is to the structured output
sink, with no interpretation, and succeeds. -/
def as_json (json : Bytes) : Except (List String) Bytes := .ok json

/-- Model of `output` (lines 168-174 of list.rs): dispatch on the output format.
The JSON branch chains `as_json` errors with the umbrella
`PocketListFailed`; the HUMAN branch returns the `output_human` result
unchanged.  Yields (result, msg lines emitted, bytes sent to the sink). -/
def output (json : Bytes) (format : OutputFormat) :
    Except (List String) Unit × List Bytes × Option Bytes :=
  match format with
  | .HUMAN =>
    match output_human json with
    | .ok lines => (.ok (), lines, none)
    | .error c => (.error c, [], none)
  | .JSON =>
    match as_json json with
    | .ok b => (.ok (), [], some b)
    | .error c => (.error (pocketListFailedMsg :: c), [], none)

/-- Model of `get` (lines 151-166 of list.rs): serialize the request
(`serde_json::to_string` cannot fail for this struct, so its
"JSON serialization failed" chain is unreachable), invoke `curl` once
(chaining a failure with "Curl failed"), then validate the buffer as
UTF-8 (chaining a failure with "Data copying failed.").  The returned
HTTP status code is bound but never inspected. -/
def pocket.get (request : Request) (tb : TransportBehavior) :
    Except (List String) Bytes :=
  match tb with
  | .fails m => .error ["Curl failed", m]
  | .responds _ body =>
    if validUtf8 body then .ok body
    else .error ["Data copying failed.", utf8DecodeErrMsg]

/-- Model of `call` (lines 118-149 of list.rs).  `args.unwrap()` panics on `None`;
the option-mapper lets mirror lines 121-133 (note `is_present("search")`
is always false: no such flag is declared); the `access_token` unwrap at
line 137 panics when the token is absent — before `get`, so before any
transport call; `get` errors are chained with the umbrella
`PocketListFailed`; the `output` result is returned as-is. -/
def call (argsOpt : Option ParsedArgs) (config : Config)
    (tb : TransportBehavior) : CallTrace :=
  match argsOpt with
  | none => ⟨.panic, [], [], none, none, false⟩
  | some args =>
    match args.valueOf "state", args.valueOf "sort" with
    | some stateStr, some sortStr =>
      let state := some (State.fromStr stateStr)
      let value := if args.isPresent "tag" then args.valueOf "tag" else none
      let sort := some (SortOrder.fromStr sortStr)
      let detail_type := DetailType.ofBool (args.isPresent "details")
      let search := if args.isPresent "search" then args.valueOf "search" else none
      match config.pocket.access_token with
      | none => ⟨.panic, [], [], none, none, false⟩
      | some token =>
        let request : Request :=
          ⟨config.pocket.consumer_key, token, state, value, sort, detail_type, search⟩
        let outcome :=
          match pocket.get request tb with
          | .error c => (RunResult.error (pocketListFailedMsg :: c), ([] : List Bytes), (none : Option Bytes))
          | .ok json =>
            match output json config.output_format with
            | (.ok _, lines, sink) => (RunResult.ok, lines, sink)
            | (.error c, lines, sink) => (RunResult.error c, lines, sink)
        { result := outcome.1
          infoLines := [asciiBytes "Getting list of your articles ..."]
          msgLines := outcome.2.1
          sink := outcome.2.2
          body := some request.serializeFields
          transportCalled := true }
    | _, _ => ⟨.panic, [], [], none, none, false⟩

/-- Claim C6: the state and sort string-to-enum mappings are total and
never fail: state maps "archive" and "all" to their variants and
everything else to the default unread; sort maps "oldest", "title",
"site" to their variants and everything else to the default newest. -/
theorem c6_state_sort_total :
    State.fromStr "archive" = State.archive ∧
    State.fromStr "all" = State.all ∧
    (∀ s : String, s ≠ "archive" → s ≠ "all" → State.fromStr s = State.unread) ∧
    SortOrder.fromStr "oldest" = SortOrder.oldest ∧
    SortOrder.fromStr "title" = SortOrder.title ∧
    SortOrder.fromStr "site" = SortOrder.site ∧
    (∀ s : String, s ≠ "oldest" → s ≠ "title" → s ≠ "site" →
      SortOrder.fromStr s = SortOrder.newest) := by
  refine ⟨rfl, rfl, ?_, rfl, rfl, rfl, ?_⟩
  · intro s h1 h2
    simp [State.fromStr, h1, h2]
  · intro s h1 h2 h3
    simp [SortOrder.fromStr, h1, h2, h3]

/-- Witness for C6 at the unrecognized string "bogus": both mappings fall
back to their defaults. -/
theorem c6_witness :
    State.fromStr "bogus" = State.unread ∧
    SortOrder.fromStr "bogus" = SortOrder.newest :=
  ⟨c6_state_sort_total.2.2.1 "bogus" (by decide) (by decide),
   c6_state_sort_total.2.2.2.2.2.2 "bogus" (by decide) (by decide) (by decide)⟩

/-- Claim C4: serializing a Request whose tag and search are None yields a
payload containing no tag key and no search key at all. -/
theorem c4_omit_absent (r : Request) (h1 : r.tag = none) (h2 : r.search = none) :
    "tag" ∉ (Request.serializeFields r).map Prod.fst ∧
    "search" ∉ (Request.serializeFields r).map Prod.fst := by
  obtain ⟨ck, tok, st, tg, srt, dt, se⟩ := r
  cases h1
  cases h2
  cases st <;> cases srt <;> simp [Request.serializeFields]

/-- Witness for C4 at a concrete request with tag and search absent. -/
theorem c4_witness :
    "tag" ∉ (Request.serializeFields
      ⟨"k", "t", some .unread, none, some .newest, .simple, none⟩).map Prod.fst ∧
    "search" ∉ (Request.serializeFields
      ⟨"k", "t", some .unread, none, some .newest, .simple, none⟩).map Prod.fst :=
  c4_omit_absent ⟨"k", "t", some .unread, none, some .newest, .simple, none⟩ rfl rfl

/-- Claim C5: with flags --state archive --sort title -d and credentials
present, the serialized request body is exactly the object with
consumer_key, access_token, state archive, sort title, detailType
complete, and no tag or search keys (the model records the body in the
order the implementation emits the keys). -/
theorem c5_request_body (k t : String) (fmt : OutputFormat) (tb : TransportBehavior) :
    (call (some ⟨true, none, "archive", "title"⟩) ⟨⟨k, some t⟩, fmt⟩ tb).body =
      some [("consumer_key", k), ("access_token", t), ("state", "archive"),
            ("sort", "title"), ("detailType", "complete")] := rfl

/-- Claim C3: with the access token absent, the invocation fails (the
unwrap at line 137 panics) before any transport call: curl is never
invoked. -/
theorem c3_no_token_no_transport (a : ParsedArgs) (ck : String)
    (fmt : OutputFormat) (tb : TransportBehavior) :
    (call (some a) ⟨⟨ck, none⟩, fmt⟩ tb).result = RunResult.panic ∧
    (call (some a) ⟨⟨ck, none⟩, fmt⟩ tb).transportCalled = false :=
  ⟨rfl, rfl⟩

/-- Claim C8: the HTTP status code returned by the transport has no
influence: two runs differing only in the returned status code (same
response bytes) have identical traces — same result, same output, same
everything. -/
theorem c8_status_code_ignored (argsOpt : Option ParsedArgs) (config : Config)
    (st1 st2 : Nat) (body : Bytes) :
    call argsOpt config (.responds st1 body) =
      call argsOpt config (.responds st2 body) := by
  obtain ⟨⟨ck, tok⟩, fmt⟩ := config
  cases argsOpt with
  | none => rfl
  | some a =>
    cases tok with
    | none => rfl
    | some t => rfl

/-- Rendering of one article line, as in the loop at lines 198-200:
id, colon-space, the single-quoted title, comma-space, url. -/
def articleLineOf (a : Article) : Bytes :=
  a.item_id ++ asciiBytes ": " ++ [0x27] ++ a.resolved_title
    ++ [0x27] ++ asciiBytes ", " ++ a.resolved_url

/-- A well-formed response with status 0 whose list holds one article. -/
def statusZeroOneArticle : Bytes :=
  asciiBytes "\x7b\"status\":0,\"complete\":0,\"list\":\x7b\"9\":\x7b\"item_id\":\"9\",\"resolved_title\":\"T\",\"resolved_url\":\"u\"\x7d\x7d\x7d"

/-- Counterexample to claim C1: on a well-formed status-0 response whose
list is non-empty, output_human reports the failure message but still
emits a per-article line — it does not emit the failure message alone. -/
theorem c1_counterexample :
    output_human statusZeroOneArticle =
      .ok [asciiBytes "Receiving articles failed.",
           asciiBytes "9: " ++ [0x27] ++ asciiBytes "T" ++ [0x27] ++ asciiBytes ", u"] ∧
    output_human statusZeroOneArticle ≠
      .ok [asciiBytes "Receiving articles failed."] :=
  ⟨rfl, by decide⟩

/-- Claim C1 as amended: on every well-formed response with status 0,
output_human reports the failure message and returns success, but emits
one line per article of the (unordered) list — so article lines are
absent only when the list is empty. -/
theorem c1_soft_failure (s : Bytes) (lr : ListResult)
    (hp : fromStrListResult s = some lr) (h0 : lr.status = 0) :
    output_human s =
      .ok (asciiBytes "Receiving articles failed." ::
        lr.list.map (fun kv => articleLineOf kv.2)) := by
  simp [output_human, hp, h0, articleLineOf]

/-- Witness for the amended C1 at the concrete status-0 response. -/
theorem c1_soft_failure_witness :
    output_human statusZeroOneArticle =
      .ok [asciiBytes "Receiving articles failed.",
           articleLineOf ⟨asciiBytes "9", asciiBytes "T", asciiBytes "u"⟩] :=
  c1_soft_failure statusZeroOneArticle
    ⟨0, 0, [(asciiBytes "9", ⟨asciiBytes "9", asciiBytes "T", asciiBytes "u"⟩)]⟩
    rfl rfl

/-- Claim C9: on every well-formed response with status 1, output_human
reports "Received n articles." for the n articles of the list, followed
by exactly one line per article in the id-quoted-title-url format. -/
theorem c9_success_rendering (s : Bytes) (lr : ListResult)
    (hp : fromStrListResult s = some lr) (h1 : lr.status = 1) :
    output_human s =
      .ok (asciiBytes ("Received " ++ toString lr.list.length ++ " articles.") ::
        lr.list.map (fun kv => articleLineOf kv.2)) := by
  simp [output_human, hp, h1, articleLineOf]

/-- A well-formed response with status 1 and two articles. -/
def statusOneTwoArticles : Bytes :=
  asciiBytes "\x7b\"status\":1,\"complete\":1,\"list\":\x7b\"1\":\x7b\"item_id\":\"1\",\"resolved_title\":\"A\",\"resolved_url\":\"urlA\"\x7d,\"2\":\x7b\"item_id\":\"2\",\"resolved_title\":\"B\",\"resolved_url\":\"urlB\"\x7d\x7d\x7d"

/-- Witness for C9: the hand-built two-article status-1 response renders
as "Received 2 articles." plus one line per article. -/
theorem c9_witness :
    output_human statusOneTwoArticles =
      .ok [asciiBytes "Received 2 articles.",
           asciiBytes "1: " ++ [0x27] ++ asciiBytes "A" ++ [0x27] ++ asciiBytes ", urlA",
           asciiBytes "2: " ++ [0x27] ++ asciiBytes "B" ++ [0x27] ++ asciiBytes ", urlB"] :=
  c9_success_rendering statusOneTwoArticles
    ⟨1, 1, [(asciiBytes "1", ⟨asciiBytes "1", asciiBytes "A", asciiBytes "urlA"⟩),
            (asciiBytes "2", ⟨asciiBytes "2", asciiBytes "B", asciiBytes "urlB"⟩)]⟩
    rfl rfl

/-- The request body recorded by a tokened invocation: the serialization
of the Request that `call` builds from the parsed flags (note `search` is
always `None`, and `tag` is passed only when present). -/
theorem call_body_eq (a : ParsedArgs) (ck t : String) (fmt : OutputFormat)
    (tb : TransportBehavior) :
    (call (some a) ⟨⟨ck, some t⟩, fmt⟩ tb).body =
      some (Request.serializeFields
        ⟨ck, t, some (State.fromStr a.state),
         (if a.tag.isSome then a.tag else none),
         some (SortOrder.fromStr a.sort), DetailType.ofBool a.details, none⟩) := rfl

/-- Claim C10: every tokened invocation records a serialized body whose
keys include state, sort and detailType and never include search; and in
`build_sub_cli` no search flag is declared while state and sort carry the
defaults "unread" and "newest". -/
theorem c10_wire_keys (a : ParsedArgs) (ck t : String) (fmt : OutputFormat)
    (tb : TransportBehavior) :
    (∃ fields, (call (some a) ⟨⟨ck, some t⟩, fmt⟩ tb).body = some fields ∧
      "state" ∈ fields.map Prod.fst ∧ "sort" ∈ fields.map Prod.fst ∧
      "detailType" ∈ fields.map Prod.fst ∧ "search" ∉ fields.map Prod.fst) ∧
    build_sub_cli.filter (fun spec => spec.name = "search") = [] ∧
    (build_sub_cli.filter (fun spec => spec.name = "state")).map
      ArgSpec.defaultValue = [some "unread"] ∧
    (build_sub_cli.filter (fun spec => spec.name = "sort")).map
      ArgSpec.defaultValue = [some "newest"] := by
  refine ⟨⟨_, call_body_eq a ck t fmt tb, ?_⟩, rfl, rfl, rfl⟩
  cases htag : a.tag <;> simp [htag, Request.serializeFields]

/-- Counterexample to claim C7: when the transport returns the non-UTF-8
byte 0xFF, nothing is forwarded to the structured output sink — the
invocation fails with the decoding error instead of passing the byte
through. -/
theorem c7_counterexample :
    (call (some ⟨false, none, "unread", "newest"⟩) ⟨⟨"k", some "t"⟩, .JSON⟩
        (.responds 200 [0xFF])).sink = none ∧
    (call (some ⟨false, none, "unread", "newest"⟩) ⟨⟨"k", some "t"⟩, .JSON⟩
        (.responds 200 [0xFF])).sink ≠ some [0xFF] ∧
    (call (some ⟨false, none, "unread", "newest"⟩) ⟨⟨"k", some "t"⟩, .JSON⟩
        (.responds 200 [0xFF])).result =
      RunResult.error [pocketListFailedMsg, "Data copying failed.", utf8DecodeErrMsg] :=
  ⟨rfl, by decide, rfl⟩

/-- Claim C7 as amended: in JSON output mode, for every valid-UTF-8 byte
sequence returned by the transport — valid JSON or not — the bytes are
forwarded byte-identically to the output sink and the call succeeds;
bytes that are not valid UTF-8 fail decoding before reaching the sink. -/
theorem c7_passthrough (a : ParsedArgs) (ck t : String) (st : Nat)
    (body : Bytes) (h : validUtf8 body = true) :
    (call (some a) ⟨⟨ck, some t⟩, .JSON⟩ (.responds st body)).sink = some body ∧
    (call (some a) ⟨⟨ck, some t⟩, .JSON⟩ (.responds st body)).result =
      RunResult.ok := by
  constructor <;> simp [call, ParsedArgs.valueOf, pocket.get, output, as_json, h]

/-- Witness for the amended C7: bytes that are not valid JSON still pass
through byte-identically. -/
theorem c7_passthrough_witness :
    (call (some ⟨false, none, "unread", "newest"⟩) ⟨⟨"k", some "t"⟩, .JSON⟩
        (.responds 200 (asciiBytes "not json"))).sink =
      some (asciiBytes "not json") ∧
    (call (some ⟨false, none, "unread", "newest"⟩) ⟨⟨"k", some "t"⟩, .JSON⟩
        (.responds 200 (asciiBytes "not json"))).result = RunResult.ok :=
  c7_passthrough ⟨false, none, "unread", "newest"⟩ "k" "t" 200
    (asciiBytes "not json") (by rfl)

/-- Counterexample to claim C2: a structured parse failure in human mode
(valid UTF-8, invalid JSON) surfaces with only the "JSON parsing failed"
context — the umbrella classification is not part of its chain. -/
theorem c2_counterexample :
    (call (some ⟨false, none, "unread", "newest"⟩) ⟨⟨"k", some "t"⟩, .HUMAN⟩
        (.responds 200 (asciiBytes "nope"))).result =
      RunResult.error ["JSON parsing failed", serdeJsonErrMsg] ∧
    pocketListFailedMsg ∉ ["JSON parsing failed", serdeJsonErrMsg] :=
  ⟨rfl, by decide⟩

/-- Claim C2 as amended: transport failures and response decoding
failures are wrapped with the umbrella "failed to list Pocket articles"
classification (request serialization failure, unreachable for this
payload type, would be wrapped the same way); a structured parse failure
in human mode is surfaced with only its "JSON parsing failed" context,
without the umbrella. -/
theorem c2_error_wrapping (a : ParsedArgs) (ck t : String) (fmt : OutputFormat) :
    (∀ m, (call (some a) ⟨⟨ck, some t⟩, fmt⟩ (.fails m)).result =
      RunResult.error [pocketListFailedMsg, "Curl failed", m]) ∧
    (∀ st body, validUtf8 body = false →
      (call (some a) ⟨⟨ck, some t⟩, fmt⟩ (.responds st body)).result =
        RunResult.error [pocketListFailedMsg, "Data copying failed.",
          utf8DecodeErrMsg]) ∧
    (∀ st body, validUtf8 body = true → fromStrListResult body = none →
      (call (some a) ⟨⟨ck, some t⟩, .HUMAN⟩ (.responds st body)).result =
        RunResult.error ["JSON parsing failed", serdeJsonErrMsg] ∧
      pocketListFailedMsg ∉ ["JSON parsing failed", serdeJsonErrMsg]) := by
  refine ⟨fun m => rfl, fun st body h => ?_, fun st body h hp => ⟨?_, by decide⟩⟩
  · simp [call, ParsedArgs.valueOf, pocket.get, h]
  · simp [call, ParsedArgs.valueOf, pocket.get, output, output_human, h, hp]

/-- Witness for the amended C2 at a concrete non-UTF-8 response: the
decoding failure is wrapped with the umbrella classification. -/
theorem c2_error_wrapping_witness :
    (call (some ⟨false, none, "unread", "newest"⟩) ⟨⟨"k", some "t"⟩, .HUMAN⟩
        (.responds 500 [0xFF])).result =
      RunResult.error [pocketListFailedMsg, "Data copying failed.",
        utf8DecodeErrMsg] :=
  (c2_error_wrapping ⟨false, none, "unread", "newest"⟩ "k" "t" .HUMAN).2.1
    500 [0xFF] (by decide)

/-- Witness for C10 at a concrete invocation with no flags supplied
beyond the defaults: the recorded body has state, sort and detailType
keys and no search key. -/
theorem c10_witness :
    (∃ fields, (call (some ⟨false, none, "unread", "newest"⟩)
        ⟨⟨"k", some "t"⟩, .HUMAN⟩ (.fails "x")).body = some fields ∧
      "state" ∈ fields.map Prod.fst ∧ "sort" ∈ fields.map Prod.fst ∧
      "detailType" ∈ fields.map Prod.fst ∧ "search" ∉ fields.map Prod.fst) ∧
    build_sub_cli.filter (fun spec => spec.name = "search") = [] ∧
    (build_sub_cli.filter (fun spec => spec.name = "state")).map
      ArgSpec.defaultValue = [some "unread"] ∧
    (build_sub_cli.filter (fun spec => spec.name = "sort")).map
      ArgSpec.defaultValue = [some "newest"] :=
  c10_wire_keys ⟨false, none, "unread", "newest"⟩ "k" "t" .HUMAN (.fails "x")
